import Mathlib

/-!
Verification of `monitor.py`, a directory watcher that forwards
file-creation notifications to a Discord webhook.

The development shallowly embeds the script's pure logic:

* URL construction (`send_discord_message`, line 79): Python
  `str.replace` is modelled by `pyReplace` (left-to-right,
  non-overlapping replacement of every occurrence of a non-empty
  pattern; the script only ever uses the non-empty patterns `"/data"`
  and `" "`).
* The delivery retry loop (`send_discord_message`, lines 85-114):
  the HTTP transport is an external capability, so a delivery run is
  modelled as a function of the finite script of responses the
  endpoint produces, recording the attempts made, the sleeps
  performed, the log lines emitted, and the final outcome.
  CPython `time.sleep` raises `ValueError` when given a negative
  duration; the model records such a call as the `raised` outcome,
  since the exception is not caught by the loop.
* `float()` applied to the `Retry-After` header is modelled by
  `pyFloat?`, implementing the CPython grammar over ASCII strings:
  surrounding whitespace, an optional sign, underscores between
  digits, decimal digits with optional fraction and exponent, and the
  case-insensitive words inf, infinity and nan.  CPython additionally
  maps Unicode decimal digits and Unicode whitespace to ASCII before
  parsing; such non-ASCII forms are outside the model, and the
  theorems about the rate-limit branch therefore carry an
  `asciiHeader` hypothesis restricting to header strings on which the
  model is exact.  A parsed finite value is represented by its exact
  decimal value as a rational; the rounding of that value to a binary
  double is abstracted away (it preserves sign, and the claims speak
  of sleeping approximately the parsed duration).  `time.sleep`
  raises for a NaN or infinite argument, for a negative argument, and
  for a finite argument whose nanosecond conversion exceeds the
  signed 64-bit range; the model applies that last threshold,
  2^63 - 1 nanoseconds, to the exact decimal value (double rounding
  within a few ulps of the threshold is abstracted away, and the
  theorems keep a wide margin below it).
* The queue/worker pipeline (`NewFileHandler.on_created`, `worker`,
  `main`): the FIFO queue contents are modelled as a list of items,
  an item being a path or the `None` sentinel; `Queue.join` returns
  exactly when every `put` has been matched by a `task_done`.
-/

/-- `leadMatch pat s` is true iff `pat` is a leading segment of `s`
(character-by-character comparison from the front). -/
def leadMatch : List Char → List Char → Bool
  | [], _ => true
  | _ :: _, [] => false
  | c :: cs, d :: ds => c = d && leadMatch cs ds

/-- `occursIn pat s` is true iff `pat` occurs contiguously somewhere in `s`. -/
def occursIn (pat : List Char) : List Char → Bool
  | [] => leadMatch pat []
  | c :: tail => leadMatch pat (c :: tail) || occursIn pat tail

/-- Fuel-indexed worker for `pyReplace`: scan left to right; wherever the
(non-empty) pattern matches, emit the replacement and skip the matched
characters; otherwise keep one character and continue.  `fuel` bounds the
number of characters consumed, so `fuel = s.length` computes the full
replacement. -/
def pyReplaceAux (pat rep : List Char) : Nat → List Char → List Char
  | _, [] => []
  | 0, s => s
  | Nat.succ fuel, c :: cs =>
    if pat ≠ [] ∧ leadMatch pat (c :: cs) then
      rep ++ pyReplaceAux pat rep fuel (List.drop pat.length (c :: cs))
    else
      c :: pyReplaceAux pat rep fuel cs

/-- Python `s.replace(pat, rep)` for a non-empty `pat`: replace every
occurrence, left to right, without overlap.  (For the empty pattern CPython
interleaves `rep` between characters; the script never uses an empty
pattern, and this model returns `s` unchanged there.) -/
def pyReplace (s pat rep : String) : String :=
  ⟨pyReplaceAux pat.data rep.data s.data.length s.data⟩

/-- The hard-coded external base URL from `monitor.py` line 79. -/
def externalBase : String := "http://192.168.5.22:8080/files/hdd2/Octocrate"

/-- URL construction of `send_discord_message` (line 79), abstracted over
the base string that the source hard-codes:
`(base + file_path.replace("/data", "")).replace(" ", "%20")`. -/
def buildUrlWith (base path : String) : String :=
  pyReplace (base ++ pyReplace path "/data" "") " " "%20"

/-- The URL actually constructed by `send_discord_message` (line 79). -/
def buildUrl (path : String) : String :=
  buildUrlWith externalBase path

/-- The message content of the payload built on lines 82-84. -/
def payloadContent (path : String) : String :=
  "🆕 file detected: <" ++ buildUrl path ++ "> in monitored directory."

/-- Modelled from the spec (claim C1's construction, for comparison with
the code's `buildUrlWith`): strip the watch-root prefix — and only that
leading prefix — from the path, prepend the base, percent-encode spaces. -/
def stripLead (watchRoot path : String) : String :=
  if leadMatch watchRoot.data path.data then ⟨path.data.drop watchRoot.data.length⟩
  else path

/-- Modelled from the spec (claim C1's construction): the URL obtained by
prefix-stripping rather than global substring replacement. -/
def specUrlClaim (base watchRoot path : String) : String :=
  pyReplace (base ++ stripLead watchRoot path) " " "%20"

/-- One result observed for one POST attempt (`requests.post`, line 87):
either a raised transport-level exception, or an HTTP response carrying a
status code, an optional `Retry-After` header value, and a body text. -/
inductive HttpResult where
  | exc : HttpResult
  | resp (status : Nat) (retryAfter : Option String) (body : String) : HttpResult
deriving DecidableEq

/-- How one call of `send_discord_message` ends. -/
inductive Outcome where
  | success : Outcome
  | dropped : Outcome
  | raised : Outcome
deriving DecidableEq

/-- A CPython float as far as this program can observe one: NaN, a signed
infinity, or a finite value, the latter carried as the exact decimal
value of its literal (the rounding to a binary double is abstracted
away). -/
inductive PyFloat where
  | finite (q : ℚ) : PyFloat
  | infinite (neg : Bool) : PyFloat
  | nan : PyFloat
deriving DecidableEq

/-- The log lines emitted by `send_discord_message`, in order (lines 89,
95, 104-107, 111-113). -/
inductive LogEntry where
  | errorTransport : LogEntry
  | infoSent : LogEntry
  | warnRateLimited (wait : PyFloat) : LogEntry
  | errorUnexpected (status : Nat) (body : String) : LogEntry
deriving DecidableEq

/-- The observable trace of one `send_discord_message` call run against a
finite response script: number of POST attempts, the sleep durations
performed (in order), the log lines (in order), and the outcome (`none`
when the script was exhausted while the loop was still retrying). -/
structure RunResult where
  attempts : Nat
  sleeps : List ℚ
  logs : List LogEntry
  outcome : Option Outcome
deriving DecidableEq

/-- The digits of a numeral, as a natural number. -/
def digitsVal (ds : List Char) : Nat :=
  ds.foldl (fun a c => a * 10 + (c.toNat - 48)) 0

/-- The whitespace characters CPython float() strips from both ends of its
argument, restricted to code points below 128: 0x09-0x0D and 0x20. -/
def pyIsSpace (c : Char) : Bool :=
  (9 ≤ c.toNat && c.toNat ≤ 13) || c.toNat == 32

/-- ASCII lowercasing, used for the case-insensitive inf/infinity/nan
words and the exponent marker of CPython float(). -/
def lowerAlpha (c : Char) : Char :=
  if 65 ≤ c.toNat && c.toNat ≤ 90 then Char.ofNat (c.toNat + 32) else c

/-- Scan for CPython's underscore rule with `prev` the character before
the current position: every underscore must be surrounded by digits. -/
def underscoresOkFrom (prev : Char) : List Char → Bool
  | [] => true
  | '_' :: rest =>
    prev.isDigit &&
      (match rest with
       | r :: _ => r.isDigit
       | [] => false) &&
      underscoresOkFrom '_' rest
  | c :: rest => underscoresOkFrom c rest

/-- CPython's pre-check for numeric literals with underscores: every
underscore has a digit immediately before and after it. -/
def underscoresOk : List Char → Bool
  | [] => true
  | '_' :: _ => false
  | c :: rest => underscoresOkFrom c rest

/-- Exponent part of a float literal, after the e marker: an optional sign
followed by at least one digit, consuming the whole input. -/
def parseExpPart : List Char → Option Int
  | '+' :: ds => if ds ≠ [] ∧ ds.all Char.isDigit then some (digitsVal ds : Int) else none
  | '-' :: ds => if ds ≠ [] ∧ ds.all Char.isDigit then some (-(digitsVal ds : Int)) else none
  | ds => if ds ≠ [] ∧ ds.all Char.isDigit then some (digitsVal ds : Int) else none

/-- The numeric part of a float literal (already lowercased, sign
removed): digits with optional fraction and optional exponent, at least
one digit in the mantissa.  Returns (mantissa digits as a number, number
of fraction digits, exponent). -/
def parseNumber (cs : List Char) : Option (Nat × Nat × Int) :=
  let intDs := cs.takeWhile Char.isDigit
  let rest1 := cs.dropWhile Char.isDigit
  match rest1 with
  | [] => if intDs = [] then none else some (digitsVal intDs, 0, 0)
  | '.' :: rest2 =>
    let fracDs := rest2.takeWhile Char.isDigit
    let rest3 := rest2.dropWhile Char.isDigit
    if intDs = [] ∧ fracDs = [] then none
    else
      match rest3 with
      | [] => some (digitsVal (intDs ++ fracDs), fracDs.length, 0)
      | 'e' :: es =>
        (parseExpPart es).map (fun e => (digitsVal (intDs ++ fracDs), fracDs.length, e))
      | _ => none
  | 'e' :: es => if intDs = [] then none else (parseExpPart es).map (fun e => (digitsVal intDs, 0, e))
  | _ => none

/-- The exact decimal value ± mant * 10 ^ (e - scale) as a rational. -/
def mkDecimal (neg : Bool) (mant scale : Nat) (e : Int) : ℚ :=
  let shift : Int := e - (scale : Int)
  let num : Nat := if 0 ≤ shift then mant * 10 ^ shift.toNat else mant
  let den : Nat := if 0 ≤ shift then 1 else 10 ^ (-shift).toNat
  mkRat (if neg then -(num : Int) else (num : Int)) den

/-- Sign-stripped body of a float literal (already lowercased): the words
inf, infinity and nan, or a decimal number. -/
def pyFloatBody (neg : Bool) (cs : List Char) : Option PyFloat :=
  if cs = "inf".data ∨ cs = "infinity".data then some (PyFloat.infinite neg)
  else if cs = "nan".data then some PyFloat.nan
  else (parseNumber cs).map (fun t => PyFloat.finite (mkDecimal neg t.1 t.2.1 t.2.2))

/-- A trimmed, underscore-free float literal: lowercase, take an optional
sign, then the body. -/
def pyFloatCore (cs : List Char) : Option PyFloat :=
  match cs.map lowerAlpha with
  | '+' :: rest => pyFloatBody false rest
  | '-' :: rest => pyFloatBody true rest
  | rest => pyFloatBody false rest

/-- CPython `float(s)` (line 101) on ASCII strings: strip whitespace from
both ends, check the underscore rule, drop the underscores, and parse an
optionally signed number or inf/infinity/nan word.  `none` means the call
raises ValueError.  (CPython first maps Unicode decimal digits and
Unicode whitespace to ASCII; strings containing such non-ASCII characters
are outside this model, which the theorems exclude through the
`asciiHeader` hypothesis.) -/
def pyFloat? (s : String) : Option PyFloat :=
  let trimmed := ((s.data.dropWhile pyIsSpace).reverse.dropWhile pyIsSpace).reverse
  if underscoresOk trimmed then pyFloatCore (trimmed.filter (fun c => c ≠ '_'))
  else none

/-- Lines 99-103: `float(headers.get("Retry-After"))` with fallback 2.0 on
`TypeError` (header absent, float(None)) or `ValueError` (unparseable
string). -/
def retryWait (retryAfter : Option String) : PyFloat :=
  match retryAfter with
  | none => PyFloat.finite 2
  | some h => (pyFloat? h).getD (PyFloat.finite 2)

/-- Whether a header value consists of ASCII characters only (or is
absent); on such values the `pyFloat?` embedding of CPython float() is
exact. -/
def asciiHeader : Option String → Bool
  | none => true
  | some h => h.data.all (fun c => c.toNat ≤ 127)

/-- The `while True` loop of `send_discord_message` (lines 85-114), run
against the script of results the transport produces, one per POST:

* exception from `requests.post`: log the error, sleep 5, continue;
* status 200 or 204: log success, stop (success);
* status 429: compute the wait from `Retry-After`, log a warning, then
  `time.sleep(wait)` — which raises out of the function (ValueError or
  OverflowError) when the wait is NaN, infinite, negative, or beyond the
  nanosecond range — and continue;
* any other status: log status and body, stop (event dropped). -/
def sendLoop : List HttpResult → RunResult
  | [] => ⟨0, [], [], none⟩
  | HttpResult.exc :: rest =>
    let t := sendLoop rest
    ⟨t.attempts + 1, 5 :: t.sleeps, LogEntry.errorTransport :: t.logs, t.outcome⟩
  | HttpResult.resp s ra body :: rest =>
    if s = 200 ∨ s = 204 then ⟨1, [], [LogEntry.infoSent], some Outcome.success⟩
    else if s = 429 then
      match retryWait ra with
      | PyFloat.finite q =>
        if q < 0 ∨ mkRat 9223372036854775807 1000000000 < q then
          ⟨1, [], [LogEntry.warnRateLimited (PyFloat.finite q)], some Outcome.raised⟩
        else
          let t := sendLoop rest
          ⟨t.attempts + 1, q :: t.sleeps,
            LogEntry.warnRateLimited (PyFloat.finite q) :: t.logs, t.outcome⟩
      | w => ⟨1, [], [LogEntry.warnRateLimited w], some Outcome.raised⟩
    else ⟨1, [], [LogEntry.errorUnexpected s body], some Outcome.dropped⟩

/-- A filesystem creation event as seen by `NewFileHandler.on_created`
(line 123): the watchdog event exposes `is_directory` and `src_path`. -/
structure FsEvent where
  is_directory : Bool
  src_path : String
deriving DecidableEq

/-- `NewFileHandler.on_created` (lines 123-126), acting on the queue
contents `q`: directory events are ignored, any other event enqueues the
event's path. -/
def on_created (q : List String) (e : FsEvent) : List String :=
  if e.is_directory then q else q ++ [e.src_path]

/-- The queue contents produced by a sequence of creation events handled
by `NewFileHandler.on_created`, starting from queue contents `q`. -/
def processEvents (q : List String) : List FsEvent → List String
  | [] => q
  | e :: es => processEvents (on_created q e) es

/-- The `worker` loop (lines 129-136) run over the queue items it will
dequeue, in order (`none` is the `None` sentinel): the list of paths it
passes to `send_discord_message`, in call order.  The loop stops at the
first sentinel. -/
def workerDeliveries : List (Option String) → List String
  | [] => []
  | none :: _ => []
  | some p :: rest => p :: workerDeliveries rest

/-- The number of `queue.task_done()` calls the `worker` loop performs
over the queue items it dequeues: one per non-sentinel item before the
first sentinel (line 136); the sentinel branch breaks without calling
`task_done` (lines 133-134). -/
def workerTaskDones : List (Option String) → Nat
  | [] => 0
  | none :: _ => 0
  | some _ :: rest => workerTaskDones rest + 1

/-- `Queue.unfinished_tasks` at the point where `main` blocks in
`event_queue.join()` (line 160), for a run in which `events` were
enqueued before shutdown and then the single `None` sentinel was put
(line 159): each `put` increments the counter, each `task_done`
decrements it, and `join` returns exactly when it is zero. -/
def shutdownUnfinished (events : List String) : Nat :=
  (events.length + 1) - workerTaskDones (events.map (fun p => some p) ++ [none])

/-- Whether `event_queue.join()` on line 160 can return: it does exactly
when `unfinished_tasks` reaches zero. -/
def shutdownJoinReturns (events : List String) : Bool :=
  shutdownUnfinished events == 0

/-- The configuration environment read at startup (lines 47-48) together
with the filesystem answer used by `os.path.isdir` (line 59):
`DISCORD_WEBHOOK_URL` may be unset (`none`), `WATCH_DIRECTORY` defaults
to `"/data"`, and `monitorDirIsDir` is whether the monitored path is an
existing directory. -/
structure Env where
  discordWebhookUrl : Option String
  monitorDir : String
  monitorDirIsDir : Bool
deriving DecidableEq

/-- `validate_config` (lines 51-65): returns whether the configuration is
valid, together with the error message logged when it is not.  Python's
`not WEBHOOK_URL` is true both when the variable is unset and when it is
the empty string. -/
def validate_config (e : Env) : Bool × Option String :=
  if e.discordWebhookUrl.getD "" = "" then
    (false, some ("The DISCORD_WEBHOOK_URL environment variable is not set. " ++
      "Create a webhook in your Discord server and set this variable to the full URL."))
  else if !e.monitorDirIsDir then
    (false, some ("The directory to watch does not exist: " ++ e.monitorDir))
  else (true, none)

/-- Which components `main` (lines 139-150) starts: `observer.start()` on
line 146 and the worker thread on line 150 run only after
`validate_config` returns `True`; on `False`, `main` returns on line 141
before constructing either.  The pair records (observer started, worker
started). -/
def mainStarts (e : Env) : Bool × Bool :=
  if (validate_config e).1 then (true, true) else (false, false)

theorem leadMatch_append (l t : List Char) : leadMatch l (l ++ t) = true := by
  induction l with
  | nil => rfl
  | cons c cs ih => simpa [leadMatch] using ih

theorem pyReplaceAux_of_not_occurs (pat rep : List Char) :
    ∀ (s : List Char) (fuel : Nat), s.length ≤ fuel → occursIn pat s = false →
      pyReplaceAux pat rep fuel s = s := by
  intro s
  induction s with
  | nil => intro fuel _ _; cases fuel <;> rfl
  | cons c cs ih =>
    intro fuel hfuel hocc
    simp only [occursIn, Bool.or_eq_false_iff] at hocc
    cases fuel with
    | zero => simp at hfuel
    | succ f =>
      simp only [pyReplaceAux, hocc.1, Bool.false_eq_true, and_false, if_false]
      have hf : cs.length ≤ f := by
        simp only [List.length_cons] at hfuel
        omega
      rw [ih f hf hocc.2]

theorem pyReplaceAux_append (pat rep rest : List Char) (hp : pat ≠ [])
    (h : occursIn pat rest = false) :
    pyReplaceAux pat rep (pat ++ rest).length (pat ++ rest) = rep ++ rest := by
  cases pat with
  | nil => exact absurd rfl hp
  | cons p ps =>
    have hlm : leadMatch (p :: ps) ((p :: ps) ++ rest) = true := leadMatch_append _ _
    simp only [List.cons_append] at hlm ⊢
    simp only [List.length_cons, List.length_append, pyReplaceAux, hlm, ne_eq,
      reduceCtorEq, not_false_iff, true_and, if_true, List.length_cons,
      List.drop_succ_cons]
    rw [List.drop_left ps rest]
    rw [pyReplaceAux_of_not_occurs (p :: ps) rep rest (ps.length + rest.length)
      (by omega) h]

theorem pyReplace_strip (rest : String)
    (h : occursIn ("/data".data) rest.data = false) :
    pyReplace ("/data" ++ rest) "/data" "" = rest := by
  show String.mk (pyReplaceAux "/data".data "".data
    ("/data" ++ rest).data.length ("/data" ++ rest).data) = rest
  rw [String.data_append]
  rw [pyReplaceAux_append "/data".data "".data rest.data (by decide) h]
  rfl

theorem stripLead_append (rest : String) :
    stripLead "/data" ("/data" ++ rest) = rest := by
  have hlm : leadMatch ("/data".data) (("/data" ++ rest).data) = true := by
    rw [String.data_append]; exact leadMatch_append _ _
  simp only [stripLead, hlm, if_true]
  rw [String.data_append]
  show String.mk (List.drop ("/data".data).length ("/data".data ++ rest.data)) = rest
  rw [List.drop_left]

/-- C1 (counterexample): the code does not strip only the leading
watch-root prefix — line 79 replaces every occurrence of the substring
"/data" in the path.  For the path "/data/a/data/b.txt" with watch root
"/data", the claimed construction (strip the leading prefix only) yields
base ++ "/a/data/b.txt", but the code yields base ++ "/a/b.txt". -/
theorem C1_url_counterexample :
    buildUrlWith "http://host/base" "/data/a/data/b.txt" = "http://host/base/a/b.txt" ∧
    specUrlClaim "http://host/base" "/data" "/data/a/data/b.txt"
      = "http://host/base/a/data/b.txt" ∧
    buildUrlWith "http://host/base" "/data/a/data/b.txt"
      ≠ specUrlClaim "http://host/base" "/data" "/data/a/data/b.txt" :=
  ⟨by decide, by decide, by decide⟩

/-- C1 (amended): the URL is built by deleting every occurrence of the
literal substring "/data" from the path (not only a leading prefix, and
regardless of the configured watch directory), prepending the fixed base,
and replacing each space with "%20".  When "/data" occurs in the path only
as the leading prefix, this coincides with the claimed prefix-stripping
construction; in particular the round-trip example of the claim holds. -/
theorem C1_url_prefix_strip_amended (base rest : String)
    (h : occursIn ("/data".data) rest.data = false) :
    buildUrlWith base ("/data" ++ rest) = specUrlClaim base "/data" ("/data" ++ rest) := by
  show pyReplace (base ++ pyReplace ("/data" ++ rest) "/data" "") " " "%20"
    = pyReplace (base ++ stripLead "/data" ("/data" ++ rest)) " " "%20"
  rw [pyReplace_strip rest h, stripLead_append rest]

/-- C1 witness: the amended theorem applied to the round-trip example of
the claim, whose path has no second occurrence of "/data"; the code and
the claimed construction agree there, and produce exactly the URL the
claim names. -/
theorem C1_url_prefix_strip_amended_witness :
    occursIn ("/data".data) "/sub dir/report.txt".data = false ∧
    buildUrlWith "http://host/base" ("/data" ++ "/sub dir/report.txt")
      = specUrlClaim "http://host/base" "/data" ("/data" ++ "/sub dir/report.txt") ∧
    buildUrlWith "http://host/base" "/data/sub dir/report.txt"
      = "http://host/base/sub%20dir/report.txt" :=
  ⟨by decide,
   C1_url_prefix_strip_amended "http://host/base" "/sub dir/report.txt" (by decide),
   by decide⟩

/-- C2 (code bug): after the worker consumes the None sentinel, line 160
event_queue.join() never returns.  The worker calls task_done() only for
non-sentinel items (line 136) and breaks on the sentinel without calling
it (lines 133-134), so unfinished_tasks stays at 1 — one per put minus
one per task_done — for every sequence of drained events, and the
process hangs instead of exiting with status 0. -/
theorem C2_shutdown_join_never_returns :
    (∀ events : List String, shutdownUnfinished events = 1) ∧
    (∀ events : List String, shutdownJoinReturns events = false) := by
  have hkey : ∀ events : List String,
      workerTaskDones (events.map (fun p => some p) ++ [none]) = events.length := by
    intro events
    induction events with
    | nil => rfl
    | cons p rest ih => simpa [workerTaskDones] using ih
  constructor
  · intro events
    simp [shutdownUnfinished, hkey events]
  · intro events
    simp [shutdownJoinReturns, shutdownUnfinished, hkey events]

/-- C4 (confirmed): a transport-level failure logs the error, sleeps a
fixed 5 units and retries, with no growth in the delay; in particular two
connection errors followed by a 200 yield exactly 3 attempts with sleeps
[5, 5] and a successful completion. -/
theorem C4_transport_error_fixed_retry :
    (∀ rest : List HttpResult, sendLoop (HttpResult.exc :: rest)
        = ⟨(sendLoop rest).attempts + 1, 5 :: (sendLoop rest).sleeps,
            LogEntry.errorTransport :: (sendLoop rest).logs, (sendLoop rest).outcome⟩) ∧
    sendLoop [HttpResult.exc, HttpResult.exc, HttpResult.resp 200 none ""]
      = ⟨3, [5, 5], [LogEntry.errorTransport, LogEntry.errorTransport, LogEntry.infoSent],
          some Outcome.success⟩ :=
  ⟨fun _ => rfl, by decide⟩

/-- C5 (confirmed): any status other than 200, 204 and 429 makes exactly
one attempt, sleeps never, logs the status and body as an error, and
drops the event without retrying, whatever the endpoint would have
answered later. -/
theorem C5_unexpected_status_drops (s : Nat) (ra : Option String) (body : String)
    (h200 : s ≠ 200) (h204 : s ≠ 204) (h429 : s ≠ 429) :
    ∀ rest : List HttpResult, sendLoop (HttpResult.resp s ra body :: rest)
      = ⟨1, [], [LogEntry.errorUnexpected s body], some Outcome.dropped⟩ := by
  intro rest
  simp [sendLoop, h200, h204, h429]

/-- C5 witness: an endpoint answering 500 once gets exactly 1 POST
attempt, no sleep, an error log with status and body, and no retry. -/
theorem C5_unexpected_status_drops_witness :
    (500 ≠ 200) ∧ (500 ≠ 204) ∧ (500 ≠ 429) ∧
    sendLoop [HttpResult.resp 500 none "Internal Server Error"]
      = ⟨1, [], [LogEntry.errorUnexpected 500 "Internal Server Error"],
          some Outcome.dropped⟩ :=
  ⟨by decide, by decide, by decide,
   C5_unexpected_status_drops 500 none "Internal Server Error"
     (by decide) (by decide) (by decide) []⟩

/-- C7 (confirmed): when the queue holds N enqueued file paths followed by
the sentinel, the worker passes exactly those N paths, in enqueue order,
to send_discord_message — no loss, no duplication, no reordering. -/
theorem C7_fifo_exact_delivery (paths : List String) :
    workerDeliveries (paths.map (fun p => some p) ++ [none]) = paths ∧
    (workerDeliveries (paths.map (fun p => some p) ++ [none])).length = paths.length := by
  have hmain : workerDeliveries (paths.map (fun p => some p) ++ [none]) = paths := by
    induction paths with
    | nil => rfl
    | cons p rest ih => simpa [workerDeliveries] using ih
  exact ⟨hmain, by rw [hmain]⟩

/-- C8 (confirmed): with the webhook URL unset or empty, or with a watch
path that is not an existing directory, validation fails with an error
message and main starts neither the observer nor the worker thread (and
hence nothing that could attempt a network call). -/
theorem C8_invalid_config_starts_nothing (e : Env)
    (h : e.discordWebhookUrl = none ∨ e.discordWebhookUrl = some "" ∨
      e.monitorDirIsDir = false) :
    (validate_config e).1 = false ∧ (validate_config e).2.isSome ∧
      mainStarts e = (false, false) := by
  rcases h with h | h | h
  · simp [validate_config, mainStarts, h]
  · simp [validate_config, mainStarts, h]
  · by_cases hu : e.discordWebhookUrl.getD "" = ""
    · simp [validate_config, mainStarts, hu]
    · simp [validate_config, mainStarts, hu, h]

/-- C8 witness: with DISCORD_WEBHOOK_URL unset and an existing /data
directory, validation fails and nothing is started. -/
theorem C8_invalid_config_starts_nothing_witness :
    ((Env.mk none "/data" true).discordWebhookUrl = none ∨
      (Env.mk none "/data" true).discordWebhookUrl = some "" ∨
      (Env.mk none "/data" true).monitorDirIsDir = false) ∧
    (validate_config (Env.mk none "/data" true)).1 = false ∧
    (validate_config (Env.mk none "/data" true)).2.isSome ∧
    mainStarts (Env.mk none "/data" true) = (false, false) := by
  refine ⟨Or.inl rfl, ?_⟩
  exact C8_invalid_config_starts_nothing (Env.mk none "/data" true) (Or.inl rfl)

/-- C9 (confirmed): a sequence of creation events enqueues exactly the
paths of its non-directory events, in order; in particular a single
directory event enqueues nothing and a single non-directory event
enqueues exactly its path. -/
theorem C9_on_created_enqueues (events : List FsEvent) (q : List String) :
    processEvents q events
      = q ++ (events.filter (fun e => !e.is_directory)).map (fun e => e.src_path) := by
  induction events generalizing q with
  | nil => simp [processEvents]
  | cons e rest ih =>
    by_cases hd : e.is_directory
    · simp [processEvents, on_created, hd, ih]
    · simp [processEvents, on_created, hd, ih]

/-- C10 (confirmed): URL construction is a pure function of the path, so
two deliveries of the same path under the same configuration build
byte-identical URLs. -/
theorem C10_url_deterministic (p q : String) (h : p = q) : buildUrl p = buildUrl q :=
  congrArg buildUrl h

/-- C10 witness: the determinism theorem applied at a concrete path. -/
theorem C10_url_deterministic_witness :
    ("/data/x.txt" : String) = "/data/x.txt" ∧
      buildUrl "/data/x.txt" = buildUrl "/data/x.txt" :=
  ⟨rfl, C10_url_deterministic "/data/x.txt" "/data/x.txt" rfl⟩

/-- C3 (counterexample): the claim says a 429 always sleeps the parsed
Retry-After duration and retries.  With Retry-After "-2.5" the header
parses to a negative float and time.sleep raises ValueError (uncaught),
so the function neither sleeps that duration nor retries: one attempt, no
sleep, and the loop ends by exception although further responses were
available. -/
theorem C3_rate_limited_retry_counterexample :
    pyFloat? "-2.5" = some (PyFloat.finite (mkRat (-5) 2)) ∧
    sendLoop [HttpResult.resp 429 (some "-2.5") "", HttpResult.resp 204 none ""]
      = ⟨1, [], [LogEntry.warnRateLimited (PyFloat.finite (mkRat (-5) 2))],
          some Outcome.raised⟩ :=
  ⟨by decide, by decide⟩

/-- C3 (amended): on a 429 whose Retry-After header (within the ASCII
alphabet on which the float() embedding is exact) parses to a finite
nonnegative float — or is absent or unparseable, defaulting to 2.0 — the
loop logs a warning, sleeps that duration, and retries; a parse to a
negative, infinite, NaN or out-of-range value instead makes time.sleep
raise, aborting the delivery (the margin 9e9 seconds stays far below the
2^63 - 1 nanosecond bound).  The retry is unbounded: a script of n
consecutive 429 responses produces n attempts without a terminal outcome.
The round-trip of the claim (429 with Retry-After 1.5, then 204) makes
exactly 2 attempts with a single sleep of 1.5, and whitespace, exponent
and underscore header forms parse as CPython does. -/
theorem C3_rate_limited_retry_amended :
    (∀ (ra : Option String) (body : String) (rest : List HttpResult) (q : ℚ),
        asciiHeader ra = true → retryWait ra = PyFloat.finite q →
        0 ≤ q → q < (9000000000 : ℚ) →
        sendLoop (HttpResult.resp 429 ra body :: rest)
          = ⟨(sendLoop rest).attempts + 1, q :: (sendLoop rest).sleeps,
              LogEntry.warnRateLimited (PyFloat.finite q) :: (sendLoop rest).logs,
              (sendLoop rest).outcome⟩) ∧
    retryWait (some "1.5") = PyFloat.finite (mkRat 3 2) ∧
    retryWait (some " 1.5 ") = PyFloat.finite (mkRat 3 2) ∧
    retryWait (some "1_5") = PyFloat.finite 15 ∧
    retryWait (some "1e1") = PyFloat.finite 10 ∧
    retryWait none = PyFloat.finite 2 ∧
    retryWait (some "soon") = PyFloat.finite 2 ∧
    sendLoop [HttpResult.resp 429 (some "1.5") "", HttpResult.resp 204 none ""]
      = ⟨2, [mkRat 3 2], [LogEntry.warnRateLimited (PyFloat.finite (mkRat 3 2)),
          LogEntry.infoSent], some Outcome.success⟩ ∧
    (∀ n : Nat, sendLoop (List.replicate n (HttpResult.resp 429 none ""))
      = ⟨n, List.replicate n 2,
          List.replicate n (LogEntry.warnRateLimited (PyFloat.finite 2)), none⟩) := by
  refine ⟨?_, by decide, by decide, by decide, by decide, by decide, by decide, by decide, ?_⟩
  · intro ra body rest q ha hw h0 h9
    have hb : (9000000000 : ℚ) ≤ mkRat 9223372036854775807 1000000000 := by decide
    have hcond : ¬ (q < 0 ∨ mkRat 9223372036854775807 1000000000 < q) := by
      push_neg
      exact ⟨h0, le_trans (le_of_lt h9) hb⟩
    simp [sendLoop, hw, hcond]
  · intro n
    induction n with
    | zero => rfl
    | succ m ih =>
      have hw : retryWait none = PyFloat.finite 2 := by decide
      have hcond : ¬ ((2 : ℚ) < 0 ∨ mkRat 9223372036854775807 1000000000 < 2) := by decide
      simp [List.replicate_succ, sendLoop, hw, hcond, ih]

/-- C3 witness: the amended 429 clause applied to the round-trip input of
the claim, with the hypotheses discharged at the parsed wait 1.5. -/
theorem C3_rate_limited_retry_amended_witness :
    asciiHeader (some "1.5") = true ∧
    retryWait (some "1.5") = PyFloat.finite (mkRat 3 2) ∧
    (0 : ℚ) ≤ mkRat 3 2 ∧ mkRat 3 2 < (9000000000 : ℚ) ∧
    sendLoop [HttpResult.resp 429 (some "1.5") "", HttpResult.resp 204 none ""]
      = ⟨(sendLoop [HttpResult.resp 204 none ""]).attempts + 1,
          mkRat 3 2 :: (sendLoop [HttpResult.resp 204 none ""]).sleeps,
          LogEntry.warnRateLimited (PyFloat.finite (mkRat 3 2))
            :: (sendLoop [HttpResult.resp 204 none ""]).logs,
          (sendLoop [HttpResult.resp 204 none ""]).outcome⟩ :=
  ⟨by decide, by decide, by decide, by decide,
   C3_rate_limited_retry_amended.1 (some "1.5") "" [HttpResult.resp 204 none ""]
     (mkRat 3 2) (by decide) (by decide) (by decide) (by decide)⟩

